import Mathlib

/-!
Shallow embedding of the CBM enrichment scripts
(`uniprot_fetcher.py`, `check_structures.py`, `generate_fasta.py`).

Network interaction is modelled by an environment mapping each request
(keyed by query string, accession, or download URL) to an abstract HTTP
outcome.  JSON response bodies are modelled by structures carrying exactly
the fields the scripts read; a field that may be absent in the JSON is an
`Option`.  Python `None` and the empty string are both falsy; the helper
`optTruthy` normalises an optional string to `none` when it is falsy, which
is how the scripts test such values.
-/

/-- Outcome of one HTTP request, as the scripts distinguish them:
a parsed 2xx body, `requests.exceptions.HTTPError` carrying the status
code and response text, `requests.exceptions.ConnectionError`, or any
other exception (broad `except Exception`). -/
inductive HttpResp (α : Type) where
  | ok (body : α)
  | httpError (code : Nat) (text : String)
  | connError (msg : String)
  | otherError (msg : String)
deriving DecidableEq

/-- Python truthiness for an optional string: `None` and `""` are falsy.
Normalises a falsy value to `none`. -/
def optTruthy : Option String → Option String
  | some s => if s = "" then none else some s
  | none => none

/-- Characters stripped by Python `str.strip` (ASCII whitespace). -/
def pyWhitespace (c : Char) : Bool :=
  c = ' ' || c = '\t' || c = '\n' || c = '\r' || c = Char.ofNat 11 || c = Char.ofNat 12

/-- Model of Python `str.strip()`: drop leading and trailing whitespace. -/
def pyStrip (s : String) : String :=
  String.mk (((s.data.dropWhile pyWhitespace).reverse.dropWhile pyWhitespace).reverse)

/-- Model of Python `str.split(sep)` for a one-character separator:
splitting never yields an empty list (splitting the empty string yields
`[""]`). -/
def pySplitCharAux (sep : Char) : List Char → List Char → List (List Char)
  | [], acc => [acc.reverse]
  | c :: rest, acc =>
    if c = sep then acc.reverse :: pySplitCharAux sep rest []
    else pySplitCharAux sep rest (c :: acc)

/-- Split a string on a one-character separator, Python `str.split(sep)`. -/
def pySplitChar (sep : Char) (s : String) : List String :=
  (pySplitCharAux sep s.data []).map String.mk

/-- Model of the Python substring test `needle in hay`. -/
def listContainsSub (needle : List Char) : List Char → Bool
  | [] => needle.isEmpty
  | c :: rest => needle.isPrefixOf (c :: rest) || listContainsSub needle rest

/-- String version of the substring test. -/
def strContainsSub (needle hay : String) : Bool :=
  listContainsSub needle.data hay.data

/-- Model of `re.search(r"family (\d+)", s)`: scan positions left to
right; at the first position where the literal `family ` is followed by at
least one digit, capture the maximal digit run.  Returns the captured
digit string. -/
def familyNumSearch : List Char → Option String
  | [] => none
  | c :: rest =>
    if ("family ".data).isPrefixOf (c :: rest) then
      let ds := ((c :: rest).drop 7).takeWhile Char.isDigit
      if ds.isEmpty then familyNumSearch rest else some (String.mk ds)
    else familyNumSearch rest

/-! ## uniprot_fetcher: data model -/

/-- One entry of the Stage-1 search response `results` list; the script
reads only the `accession` and `primaryAccession` fields. -/
structure SearchEntry where
  accession : Option String
  primaryAccession : Option String
deriving DecidableEq

/-- One element of the detail response `features` list; the script reads
only `type` and `description`. -/
structure Feature where
  type : Option String
  description : Option String
deriving DecidableEq

/-- A `{"value": ...}` object holding a gene name or synonym. -/
structure NameValue where
  value : String
deriving DecidableEq

/-- One element of the detail response `genes` list. -/
structure GeneEntry where
  geneName : Option NameValue
  synonyms : Option (List NameValue)
deriving DecidableEq

/-- The `sequence` object of the detail response; the script reads
`sequence.value`. -/
structure SeqObj where
  value : Option String
deriving DecidableEq

/-- Fields of the Stage-2 detail response read by `get_uniprot_data`.
`features := none` models a JSON body with no `features` key. -/
structure DetailData where
  primaryAccession : Option String
  accession : Option String
  uniProtkbId : Option String
  id : Option String
  sequence : Option SeqObj
  genes : Option (List GeneEntry)
  features : Option (List Feature)
deriving DecidableEq

/-- Network environment of `uniprot_fetcher.py`: the search endpoint keyed
by the query string (a 2xx body is its `results` list; a JSON-null body is
modelled as the empty list, which the script treats the same way), and the
detail endpoint keyed by the accession. -/
structure FetchEnv where
  search : String → HttpResp (List SearchEntry)
  detail : String → HttpResp DetailData

/-- The dictionary returned by `get_uniprot_data`. -/
structure UniRecord where
  UniProt_Accession : Option String
  UniProt_ID : Option String
  Amino_Acid_Sequence : Option String
  CBM_Family : Option String
  Gene_Names : Option String
  Status : String
deriving DecidableEq

/-- A record whose data fields are all `None`, as returned on Stage-1
failures. -/
def allNoneRecord (st : String) : UniRecord :=
  { UniProt_Accession := none, UniProt_ID := none, Amino_Acid_Sequence := none,
    CBM_Family := none, Gene_Names := none, Status := st }

/-- A single-quote character, used inside status strings. -/
def squot : String := String.mk [Char.ofNat 39]

/-- Status string of the Stage-2 success return. -/
def successStatus (acc : String) : String :=
  "Success (Found via " ++ squot ++ acc ++ squot ++ ")"

/-- Status string of the Stage-2 return when the detail body has no
`features` key. -/
def noDetailsStatus (acc : String) : String :=
  "Found Accession but No Details (Accession: " ++ acc ++ ")"

/-- Status string of the Stage-2 HTTP-error return. -/
def stage2HttpStatus (acc : String) : String :=
  "HTTP Error in Stage 2 (Accession: " ++ acc ++ ")"

/-- Status string of the Stage-2 connection-error return. -/
def stage2ConnStatus : String := "Connection Error in Stage 2"

/-- Status string of the Stage-2 broad-exception return. -/
def stage2ErrStatus (msg : String) : String := "Error in Stage 2: " ++ msg

/-- Status string of the Stage-1 broad-exception return. -/
def stage1ErrStatus (msg : String) : String := "Error: " ++ msg

/-! ## uniprot_fetcher: Stage 1 -/

/-- The five Stage-1 query templates, in the order the script tries them
(`accession_finding_queries`). -/
def accessionFindingQueries (identifier : String) : List String :=
  ["xref:GenBank-" ++ identifier,
   "database:GenBank " ++ identifier,
   identifier,
   "accession:" ++ identifier,
   "protein_name:" ++ identifier]

/-- Accession extracted from the first result entry: the `accession`
field if truthy, otherwise `primaryAccession` if truthy. -/
def extractAccession (e : SearchEntry) : Option String :=
  (optTruthy e.accession).or (optTruthy e.primaryAccession)

/-- Outcome of the Stage-1 loop of `get_uniprot_data`. -/
inductive Stage1Result where
  | found (acc : String)
  | notFound
  | connFail
  | genFail (msg : String)
deriving DecidableEq

/-- The Stage-1 loop over the query templates (lines 41-93 of
`uniprot_fetcher.py`): a blank query is skipped; an HTTP error, an empty
result list, or a first entry yielding no accession moves on to the next
query; a truthy extracted accession breaks out of the loop; a connection
error or any other exception returns immediately. -/
def stage1Loop (env : FetchEnv) : List String → Stage1Result
  | [] => .notFound
  | q :: rest =>
    if pyStrip q = "" then stage1Loop env rest
    else
      match env.search q with
      | .ok [] => stage1Loop env rest
      | .ok (e :: _) =>
        match extractAccession e with
        | some a => .found a
        | none => stage1Loop env rest
      | .httpError _ _ => stage1Loop env rest
      | .connError _ => .connFail
      | .otherError m => .genFail m

/-- The accession one query contributes if the loop reaches it: `none`
when the query is blank, errors, returns no results, or its first entry
has no truthy accession field. -/
def queryYields (env : FetchEnv) (q : String) : Option String :=
  if pyStrip q = "" then none
  else
    match env.search q with
    | .ok (e :: _) => extractAccession e
    | _ => none

/-- The Stage-1 loop moves past query `q` without terminating: `q` is
blank, or it gets an HTTP error, or it gets a 2xx body from which no
accession is extracted. -/
def passesOver (env : FetchEnv) (q : String) : Prop :=
  pyStrip q = "" ∨
  (∃ code text, env.search q = .httpError code text) ∨
  (∃ rs, env.search q = .ok rs ∧ queryYields env q = none)

/-! ## uniprot_fetcher: Stage 2 -/

/-- Gene-name strings contributed by one `genes` entry: the primary
`geneName.value` if present, then every synonym value. -/
def geneValuesOf (g : GeneEntry) : List String :=
  (match g.geneName with
   | some n => [n.value]
   | none => []) ++
  (match g.synonyms with
   | some ss => ss.map NameValue.value
   | none => [])

/-- All gene-name strings of the `genes` list, in script order. -/
def geneValues : List GeneEntry → List String
  | [] => []
  | g :: rest => geneValuesOf g ++ geneValues rest

/-- Model of `", ".join(list(set(gene_values)))`.  Python set iteration
order is unspecified; the model deduplicates with a fixed order.  No claim
depends on the order. -/
def computeGeneNames (genes : Option (List GeneEntry)) : String :=
  match genes with
  | some gs => if gs = [] then "" else String.intercalate ", " (geneValues gs).dedup
  | none => ""

/-- The per-feature guard of the CBM-family scan: `type == "Domain"` and
the description (defaulted to `""`) contains `Carbohydrate-binding
module`. -/
def featureCBMMatch (f : Feature) : Bool :=
  f.type == some "Domain" &&
    strContainsSub "Carbohydrate-binding module" (f.description.getD "")

/-- The CBM-family loop over `features` (lines 140-146): at the first
feature passing the guard whose description also matches
`family (\d+)`, return `CBM<digits>` and break; otherwise keep the empty
string. -/
def cbmFamilyOfFeatures : List Feature → String
  | [] => ""
  | f :: rest =>
    if featureCBMMatch f then
      match familyNumSearch (f.description.getD "").data with
      | some n => "CBM" ++ n
      | none => cbmFamilyOfFeatures rest
    else cbmFamilyOfFeatures rest

/-- Stage 2 of `get_uniprot_data` (lines 115-182): fetch the detail
endpoint for the Stage-1 accession and build the returned dictionary.
The success return is nested inside the features-key test branch;
a body without `features` yields the accession-only record. -/
def stage2 (env : FetchEnv) (foundAcc : String) : UniRecord :=
  match env.detail foundAcc with
  | .ok data =>
    let uacc := (optTruthy data.primaryAccession).or (optTruthy data.accession)
    let uid := (optTruthy data.uniProtkbId).or (optTruthy data.id)
    let seqv : Option String :=
      match data.sequence with
      | some s => s.value
      | none => none
    let geneNames := computeGeneNames data.genes
    match data.features with
    | some feats =>
      { UniProt_Accession := uacc, UniProt_ID := uid,
        Amino_Acid_Sequence := seqv,
        CBM_Family := some (cbmFamilyOfFeatures feats),
        Gene_Names := some geneNames,
        Status := successStatus foundAcc }
    | none =>
      { UniProt_Accession := some foundAcc, UniProt_ID := none,
        Amino_Acid_Sequence := none, CBM_Family := none, Gene_Names := none,
        Status := noDetailsStatus foundAcc }
  | .httpError _ _ =>
    { UniProt_Accession := some foundAcc, UniProt_ID := none,
      Amino_Acid_Sequence := none, CBM_Family := none, Gene_Names := none,
      Status := stage2HttpStatus foundAcc }
  | .connError _ =>
    { UniProt_Accession := some foundAcc, UniProt_ID := none,
      Amino_Acid_Sequence := none, CBM_Family := none, Gene_Names := none,
      Status := stage2ConnStatus }
  | .otherError m => allNoneRecord (stage2ErrStatus m)

/-- The whole `get_uniprot_data`: Stage 1 then, on success, Stage 2. -/
def get_uniprot_data (env : FetchEnv) (identifier : String) : UniRecord :=
  match stage1Loop env (accessionFindingQueries identifier) with
  | .found acc => stage2 env acc
  | .notFound => allNoneRecord "Not Found after multiple attempts"
  | .connFail => allNoneRecord "Connection Error"
  | .genFail m => allNoneRecord (stage1ErrStatus m)

/-! ## uniprot_fetcher: per-row loop of process_cbm_list -/

/-- One input row of `process_cbm_list`: the cell of the identifier
column (`none` models a NaN cell) and the other original columns,
abstracted as an uninterpreted payload carried into the output row
(`row.to_dict()`). -/
structure InRow where
  idCell : Option String
  payload : List (String × String)
deriving DecidableEq

/-- One output row: the original row plus the UniProt record merged in by
`combined_row.update(...)`. -/
structure FetchOutRow where
  original : InRow
  uniprot : UniRecord
deriving DecidableEq

/-- The body of the `process_cbm_list` loop (lines 216-254): build the
identifier (text before the first `|`, stripped); a row whose identifier
comes out empty is appended with the skip status, any other row is
appended with the result of `get_uniprot_data`. -/
def processOneCbmRow (env : FetchEnv) (row : InRow) : FetchOutRow :=
  let rawIdentifier :=
    match row.idCell with
    | some s => pyStrip s
    | none => ""
  let identifierForUniprot :=
    if rawIdentifier = "" then ""
    else pyStrip (((pySplitChar '|' rawIdentifier).headD ""))
  if identifierForUniprot = "" then
    { original := row,
      uniprot := allNoneRecord "Skipped (Empty/Invalid Identifier)" }
  else
    { original := row, uniprot := get_uniprot_data env identifierForUniprot }

/-- The row loop of `process_cbm_list`, modelled as the script writes it:
a fold that appends one row to `results` per iteration. -/
def process_cbm_list (env : FetchEnv) (rows : List InRow) : List FetchOutRow :=
  rows.foldl (fun results row => results ++ [processOneCbmRow env row]) []

/-! ## check_structures: data model and classification -/

/-- One element of `uniProtKBCrossReferences`; the script reads only
`database` and `id`. -/
structure Xref where
  database : Option String
  id : Option String
deriving DecidableEq

/-- Fields of the detail response read by `check_existing_structure`. -/
structure StructData where
  uniProtKBCrossReferences : Option (List Xref)
deriving DecidableEq

/-- The dictionary returned by `check_existing_structure`. -/
structure StructStatus where
  Status : String
  PDB_ID : String
  AlphaFoldDB_ID : String
deriving DecidableEq

/-- Network environment of `check_structures.py`: the detail endpoint
keyed by accession, and the file servers keyed by download URL (the body
of a download does not matter to the control flow). -/
structure StructEnv where
  detail : String → HttpResp StructData
  download : String → HttpResp Unit

/-- The PDB ids collected by the first cross-reference loop (lines
100-105): ids of cross-references whose `database` is `PDB`, keeping only
truthy ids (`if pdb_entry_id:`). -/
def pdbIdsOf (xrefs : List Xref) : List String :=
  xrefs.filterMap fun x =>
    if x.database == some "PDB" then optTruthy x.id else none

/-- The AlphaFold id picked by the second loop (lines 108-112): the `id`
field of the first cross-reference whose `database` is `AlphaFoldDB`
(the loop breaks there, whether or not that id is present). -/
def alphafoldIdOf (xrefs : List Xref) : Option String :=
  match xrefs.find? (fun x => x.database == some "AlphaFoldDB") with
  | some x => x.id
  | none => none

/-- Classification of a successfully fetched entry (lines 98-131):
PDB if any truthy PDB id was collected, else AlphaFold if the picked
AlphaFold id is truthy, else needs prediction. -/
def classifyStructData (data : StructData) : StructStatus :=
  let xrefs := data.uniProtKBCrossReferences.getD []
  let pdb_ids := pdbIdsOf xrefs
  let alphafold_id := optTruthy (alphafoldIdOf xrefs)
  if pdb_ids ≠ [] then
    { Status := "PDB Available",
      PDB_ID := String.intercalate ", " pdb_ids,
      AlphaFoldDB_ID := alphafold_id.getD "N/A" }
  else
    match alphafold_id with
    | some a =>
      { Status := "AlphaFoldDB Available", PDB_ID := "N/A", AlphaFoldDB_ID := a }
    | none =>
      { Status := "Needs Prediction", PDB_ID := "N/A", AlphaFoldDB_ID := "N/A" }

/-- Status string for a non-404 HTTP error in `check_existing_structure`. -/
def httpErrorStatus (code : Nat) : String :=
  "HTTP Error (" ++ toString code ++ ")"

/-- Model of `check_existing_structure` (lines 72-161): classify a 2xx body;
map a 404 to the not-found status, any other HTTP error to
`HTTP Error (<code>)`, connection failures to `Connection Error`, and
any other exception to `Error: <message>`. -/
def check_existing_structure (env : StructEnv) (acc : String) : StructStatus :=
  match env.detail acc with
  | .ok data => classifyStructData data
  | .httpError code _ =>
    if code = 404 then
      { Status := "UniProt Accession Not Found", PDB_ID := "N/A", AlphaFoldDB_ID := "N/A" }
    else
      { Status := httpErrorStatus code, PDB_ID := "N/A", AlphaFoldDB_ID := "N/A" }
  | .connError _ =>
    { Status := "Connection Error", PDB_ID := "N/A", AlphaFoldDB_ID := "N/A" }
  | .otherError m =>
    { Status := "Error: " ++ m, PDB_ID := "N/A", AlphaFoldDB_ID := "N/A" }

/-! ## check_structures: download and per-row loop -/

/-- Model of `os.path.join` for plain relative components. -/
def pathJoin (a b : String) : String := a ++ "/" ++ b

/-- RCSB download URL of a PDB id. -/
def pdbDownloadUrl (pid : String) : String :=
  "https://files.rcsb.org/download/" ++ pid ++ ".pdb"

/-- AlphaFold EBI download URL of an accession. -/
def afDownloadUrl (acc : String) : String :=
  "https://alphafold.ebi.ac.uk/files/AF-" ++ acc ++ "-F1-model_v4.pdb"

/-- Model of `download_pdb_file` (lines 8-69): build the local path and URL from
the source type, request the file, and return the local path on success
or `None` (here `none`) on an unknown source type or any failure. -/
def download_pdb_file (env : StructEnv) (protein_id structure_id source_type base_download_dir : String) :
    Option String :=
  if source_type = "PDB Available" then
    let first_pdb_id := pyStrip ((pySplitChar ',' structure_id).headD "")
    let local_path :=
      pathJoin (pathJoin base_download_dir "PDB")
        (protein_id ++ "_" ++ first_pdb_id ++ ".pdb")
    match env.download (pdbDownloadUrl first_pdb_id) with
    | .ok _ => some local_path
    | _ => none
  else if source_type = "AlphaFoldDB Available" then
    let local_path :=
      pathJoin (pathJoin base_download_dir "AlphaFold DB") (protein_id ++ "_AF.pdb")
    match env.download (afDownloadUrl structure_id) with
    | .ok _ => some local_path
    | _ => none
  else none

/-- One input row of `process_cbm_for_structure_check`: the string form
of the accession cell (`str(row[col])`), the `CBM_Family` cell when the
column exists, and the optional `APR_ID`. -/
structure StructInRow where
  idCell : String
  cbmFamily : Option String
  apr_id : Option String
deriving DecidableEq

/-- One output row of `process_cbm_for_structure_check`.
`Downloaded_File_Path = none` models the Python `None` that
`download_pdb_file` returns on failure; the string `"N/A"` is
`some "N/A"`. -/
structure StructOutRow where
  Original_Protein_ID : String
  CBM_Family : String
  Structure_Status : String
  PDB_ID : String
  AlphaFoldDB_ID : String
  Downloaded_File_Path : Option String
deriving DecidableEq

/-- The body of the `process_cbm_for_structure_check` loop (lines
198-239): a row whose stripped accession is empty is appended with the
skip record (on a string, `pd.isna` is false, so only emptiness skips);
otherwise the structure check runs and, when downloading is enabled and
the status is downloadable, `download_pdb_file` is called, its result
(path or `None`) overwriting the initial `"N/A"`. -/
def processOneStructRow (env : StructEnv) (flag : Bool) (baseDir : String)
    (row : StructInRow) : StructOutRow :=
  let current := pyStrip row.idCell
  let cbm_family_val := row.cbmFamily.getD "N/A"
  if current = "" then
    { Original_Protein_ID := row.idCell, CBM_Family := cbm_family_val,
      Structure_Status := "Skipped (Missing/Invalid Accession)",
      PDB_ID := "N/A", AlphaFoldDB_ID := "N/A",
      Downloaded_File_Path := some "N/A" }
  else
    let status_info := check_existing_structure env current
    let downloaded : Option String :=
      if flag then
        if status_info.Status = "PDB Available" then
          download_pdb_file env current status_info.PDB_ID "PDB Available" baseDir
        else if status_info.Status = "AlphaFoldDB Available" then
          download_pdb_file env current status_info.AlphaFoldDB_ID "AlphaFoldDB Available" baseDir
        else some "N/A"
      else some "N/A"
    { Original_Protein_ID := current, CBM_Family := cbm_family_val,
      Structure_Status := status_info.Status, PDB_ID := status_info.PDB_ID,
      AlphaFoldDB_ID := status_info.AlphaFoldDB_ID,
      Downloaded_File_Path := downloaded }

/-- The row loop of `process_cbm_for_structure_check`, a fold appending
one row to `results` per iteration. -/
def process_cbm_for_structure_check (env : StructEnv) (flag : Bool) (baseDir : String)
    (rows : List StructInRow) : List StructOutRow :=
  rows.foldl (fun results row => results ++ [processOneStructRow env flag baseDir row]) []

/-! ## generate_fasta: sequence cleaning -/

/-- True exactly on the characters the regex class `[A-Z]` keeps. -/
def isUpperAZ (c : Char) : Bool := decide (65 ≤ c.toNat ∧ c.toNat ≤ 90)

/-- ASCII model of Python `str.upper()` on one character. -/
def upperChar (c : Char) : Char :=
  if 97 ≤ c.toNat ∧ c.toNat ≤ 122 then Char.ofNat (c.toNat - 32) else c

/-- The cleaning step of `generate_fasta_from_csv` (line 61):
`re.sub(r"[^A-Z]", "", sequence.upper())`. -/
def cleanSequence (s : String) : String :=
  String.mk ((s.data.map upperChar).filter isUpperAZ)

/-! ## Helper lemmas -/

/-- Appending one element per iteration is a map: the accumulator pattern
`results.append(...)` used by both row loops. -/
theorem foldl_append_eq_map {α β : Type} (f : α → β) (l : List α) (init : List β) :
    l.foldl (fun r x => r ++ [f x]) init = init ++ l.map f := by
  induction l generalizing init with
  | nil => simp
  | cons a t ih => simp [List.foldl_cons, ih]

/-- A character kept by `[A-Z]` is unchanged by ASCII uppercasing. -/
theorem upperChar_eq_self_of_isUpperAZ (c : Char) (h : isUpperAZ c = true) :
    upperChar c = c := by
  unfold isUpperAZ at h
  rw [decide_eq_true_iff] at h
  unfold upperChar
  rw [if_neg]
  omega

/-- Every character of a cleaned sequence lies in `A`-`Z`. -/
theorem cleanSequence_chars (s : String) :
    ∀ c ∈ (cleanSequence s).data, isUpperAZ c = true := by
  intro c hc
  have hd : (cleanSequence s).data = (s.data.map upperChar).filter isUpperAZ := rfl
  rw [hd] at hc
  exact (List.mem_filter.mp hc).2

/-! ## Claim theorems: C2 and C9 -/

/-- C2: the per-row loops of `process_cbm_list` and
`process_cbm_for_structure_check` append exactly one output row for every
input row (skipped and failed rows included), in input order, so the
output table never has fewer rows than the input table. -/
theorem C2_one_output_row_per_input_row (env1 : FetchEnv) (rows1 : List InRow)
    (env2 : StructEnv) (flag : Bool) (baseDir : String) (rows2 : List StructInRow) :
    process_cbm_list env1 rows1 = rows1.map (processOneCbmRow env1) ∧
    (process_cbm_list env1 rows1).length = rows1.length ∧
    (∀ i : Nat, (process_cbm_list env1 rows1)[i]? =
      (rows1[i]?).map (processOneCbmRow env1)) ∧
    process_cbm_for_structure_check env2 flag baseDir rows2 =
      rows2.map (processOneStructRow env2 flag baseDir) ∧
    (process_cbm_for_structure_check env2 flag baseDir rows2).length = rows2.length ∧
    (∀ i : Nat, (process_cbm_for_structure_check env2 flag baseDir rows2)[i]? =
      (rows2[i]?).map (processOneStructRow env2 flag baseDir)) := by
  have h1 : process_cbm_list env1 rows1 = rows1.map (processOneCbmRow env1) := by
    unfold process_cbm_list
    rw [foldl_append_eq_map]
    simp
  have h2 : process_cbm_for_structure_check env2 flag baseDir rows2 =
      rows2.map (processOneStructRow env2 flag baseDir) := by
    unfold process_cbm_for_structure_check
    rw [foldl_append_eq_map]
    simp
  refine ⟨h1, ?_, ?_, h2, ?_, ?_⟩
  · rw [h1]; simp
  · intro i; rw [h1]; simp
  · rw [h2]; simp
  · intro i; rw [h2]; simp

/-- C9: the FASTA cleaning step (uppercase, then strip everything outside
`A`-`Z`) is idempotent, fixes strings made only of `A`-`Z`, and maps
`abc123XYZ` to `ABCXYZ`. -/
theorem C9_clean_sequence_idempotent :
    (∀ s, cleanSequence (cleanSequence s) = cleanSequence s) ∧
    (∀ s, (∀ c ∈ s.data, isUpperAZ c = true) → cleanSequence s = s) ∧
    cleanSequence "abc123XYZ" = "ABCXYZ" := by
  have hfix : ∀ l : List Char, (∀ c ∈ l, isUpperAZ c = true) →
      (l.map upperChar).filter isUpperAZ = l := by
    intro l hl
    have hmap : l.map upperChar = l := by
      rw [List.map_congr_left (g := id) fun c hc => upperChar_eq_self_of_isUpperAZ c (hl c hc)]
      exact List.map_id l
    rw [hmap]
    exact List.filter_eq_self.mpr hl
  refine ⟨?_, ?_, by decide⟩
  · intro s
    apply String.ext
    show ((cleanSequence s).data.map upperChar).filter isUpperAZ = (cleanSequence s).data
    exact hfix _ (cleanSequence_chars s)
  · intro s hs
    apply String.ext
    show ((s.data.map upperChar).filter isUpperAZ) = s.data
    exact hfix _ hs

/-- Witness for C9: the fixed-point part applied at the concrete clean
sequence `ABC`. -/
theorem C9_clean_sequence_idempotent_witness : cleanSequence "ABC" = "ABC" :=
  C9_clean_sequence_idempotent.2.1 "ABC" (by decide)

/-! ## First-character lemmas for status strings -/

/-- Head of the character data of an appended string. -/
theorem string_head_append (s t : String) :
    (s ++ t).data.head? = s.data.head?.or t.data.head? := by
  rw [String.data_append, List.head?_append]

/-- Strings with different first characters differ. -/
theorem ne_of_head_ne {s t : String} (h : s.data.head? ≠ t.data.head?) : s ≠ t :=
  fun he => h (by rw [he])

/-- The success status always starts with `S`. -/
theorem successStatus_head (a : String) : (successStatus a).data.head? = some 'S' := by
  unfold successStatus
  rw [string_head_append, string_head_append, string_head_append, string_head_append]
  rfl

/-- The no-details status always starts with `F`. -/
theorem noDetailsStatus_head (a : String) : (noDetailsStatus a).data.head? = some 'F' := by
  unfold noDetailsStatus
  rw [string_head_append, string_head_append]
  rfl

/-- The Stage-2 HTTP-error status always starts with `H`. -/
theorem stage2HttpStatus_head (a : String) : (stage2HttpStatus a).data.head? = some 'H' := by
  unfold stage2HttpStatus
  rw [string_head_append, string_head_append]
  rfl

/-- The Stage-2 broad-exception status always starts with `E`. -/
theorem stage2ErrStatus_head (m : String) : (stage2ErrStatus m).data.head? = some 'E' := by
  unfold stage2ErrStatus
  rw [string_head_append]
  rfl

/-- The non-404 HTTP-error status of the structure checker always starts
with `H`. -/
theorem httpErrorStatus_head (c : Nat) : (httpErrorStatus c).data.head? = some 'H' := by
  unfold httpErrorStatus
  rw [string_head_append, string_head_append]
  rfl

/-! ## Claim C1 -/

/-- C1: a Stage-2 detail body without a `features` key yields the
accession-only record with the no-details status and `None` in every
other field, whatever sequence or gene data the body carries; and a
record whose status is the success status can only come from a 2xx body
that does have a `features` key. -/
theorem C1_missing_features (env : FetchEnv) (acc : String) :
    (∀ data : DetailData, env.detail acc = .ok data → data.features = none →
      stage2 env acc =
        { UniProt_Accession := some acc, UniProt_ID := none,
          Amino_Acid_Sequence := none, CBM_Family := none, Gene_Names := none,
          Status := noDetailsStatus acc }) ∧
    (∀ a : String, (stage2 env acc).Status = successStatus a →
      ∃ data : DetailData, env.detail acc = .ok data ∧ data.features.isSome) := by
  constructor
  · intro data hok hfeat
    simp [stage2, hok, hfeat]
  · intro a h
    cases henv : env.detail acc with
    | ok data =>
      cases hf : data.features with
      | some feats => exact ⟨data, rfl, by rw [hf]; rfl⟩
      | none =>
        rw [show stage2 env acc =
            { UniProt_Accession := some acc, UniProt_ID := none,
              Amino_Acid_Sequence := none, CBM_Family := none, Gene_Names := none,
              Status := noDetailsStatus acc } from by simp [stage2, henv, hf]] at h
        exact absurd h (ne_of_head_ne (by
          rw [noDetailsStatus_head, successStatus_head]; decide))
    | httpError code text =>
      rw [show (stage2 env acc).Status = stage2HttpStatus acc from by
        simp [stage2, henv]] at h
      exact absurd h (ne_of_head_ne (by
        rw [stage2HttpStatus_head, successStatus_head]; decide))
    | connError m =>
      rw [show (stage2 env acc).Status = stage2ConnStatus from by
        simp [stage2, henv]] at h
      exact absurd h (ne_of_head_ne (by
        rw [successStatus_head]; decide))
    | otherError m =>
      rw [show (stage2 env acc).Status = stage2ErrStatus m from by
        simp [stage2, henv, allNoneRecord]] at h
      exact absurd h (ne_of_head_ne (by
        rw [stage2ErrStatus_head, successStatus_head]; decide))

/-- Concrete detail body for the C1 witness: sequence and gene data
present, `features` key absent. -/
def dataC1 : DetailData :=
  { primaryAccession := some "P12345", accession := none,
    uniProtkbId := some "TEST_ECOLI", id := none,
    sequence := some { value := some "MKVA" },
    genes := some [{ geneName := some { value := "celA" }, synonyms := none }],
    features := none }

/-- Environment for the C1 witness. -/
def envC1 : FetchEnv :=
  { search := fun _ => .httpError 500 "", detail := fun _ => .ok dataC1 }

/-- Witness for C1: at a body with sequence and gene data but no
`features` key, Stage 2 returns the accession-only no-details record. -/
theorem C1_missing_features_witness :
    stage2 envC1 "P12345" =
      { UniProt_Accession := some "P12345", UniProt_ID := none,
        Amino_Acid_Sequence := none, CBM_Family := none, Gene_Names := none,
        Status := noDetailsStatus "P12345" } :=
  (C1_missing_features envC1 "P12345").1 dataC1 rfl rfl

/-! ## Stage-1 loop lemmas -/

/-- A query the loop passes over leaves the loop result unchanged. -/
theorem stage1Loop_cons_passes (env : FetchEnv) (q : String) (rest : List String)
    (h : passesOver env q) : stage1Loop env (q :: rest) = stage1Loop env rest := by
  rcases h with hb | ⟨code, text, he⟩ | ⟨rs, hok, hy⟩
  · simp [stage1Loop, hb]
  · by_cases hb : pyStrip q = ""
    · simp [stage1Loop, hb]
    · simp [stage1Loop, hb, he]
  · by_cases hb : pyStrip q = ""
    · simp [stage1Loop, hb]
    · unfold queryYields at hy
      rw [if_neg hb, hok] at hy
      cases rs with
      | nil => simp [stage1Loop, hb, hok]
      | cons e tl =>
        simp only [] at hy
        simp [stage1Loop, hb, hok, hy]

/-- A query yielding an accession terminates the loop with it. -/
theorem stage1Loop_cons_yields (env : FetchEnv) (q : String) (rest : List String) (a : String)
    (h : queryYields env q = some a) : stage1Loop env (q :: rest) = .found a := by
  unfold queryYields at h
  by_cases hb : pyStrip q = ""
  · rw [if_pos hb] at h; exact absurd h (by simp)
  · rw [if_neg hb] at h
    cases hs : env.search q with
    | ok rs =>
      rw [hs] at h
      cases rs with
      | nil => simp at h
      | cons e tl =>
        simp only [] at h
        simp [stage1Loop, hb, hs, h]
    | httpError c t => rw [hs] at h; simp at h
    | connError m => rw [hs] at h; simp at h
    | otherError m => rw [hs] at h; simp at h

/-- The loop skips a whole block of passed-over queries. -/
theorem stage1Loop_append_passes (env : FetchEnv) (pre rest : List String)
    (h : ∀ p ∈ pre, passesOver env p) :
    stage1Loop env (pre ++ rest) = stage1Loop env rest := by
  induction pre with
  | nil => rfl
  | cons p tl ih =>
    rw [List.cons_append, stage1Loop_cons_passes env p _ (h p (by simp))]
    exact ih fun x hx => h x (by simp [hx])

/-- A loop that passes over every query ends in `notFound`. -/
theorem stage1Loop_all_passes (env : FetchEnv) (qs : List String)
    (h : ∀ p ∈ qs, passesOver env p) : stage1Loop env qs = .notFound := by
  have h2 := stage1Loop_append_passes env qs [] h
  rw [List.append_nil] at h2
  exact h2

/-- A connection error on a non-blank query aborts the loop at once. -/
theorem stage1Loop_cons_conn (env : FetchEnv) (q : String) (rest : List String) (m : String)
    (hb : pyStrip q ≠ "") (h : env.search q = .connError m) :
    stage1Loop env (q :: rest) = .connFail := by
  simp [stage1Loop, hb, h]

/-! ## Claim C3 -/

/-- First-template search entry for the C3 counterexample: a result with
neither `accession` nor `primaryAccession`. -/
def entryC3a : SearchEntry := { accession := none, primaryAccession := none }

/-- Second-template search entry for the C3 counterexample. -/
def entryC3b : SearchEntry := { accession := some "P22222", primaryAccession := none }

/-- Environment for the C3 counterexample: the first template gets a
non-empty result list with no extractable accession, the second template
gets a usable accession. -/
def envC3 : FetchEnv :=
  { search := fun q =>
      if q = "xref:GenBank-X" then .ok [entryC3a]
      else if q = "database:GenBank X" then .ok [entryC3b]
      else .httpError 500 "",
    detail := fun _ => .connError "down" }

/-- C3 counterexample: the first template returns a non-empty result
list, yet iteration does not stop there; the accession actually used,
`P22222`, comes from the second template, because the first result entry
carries no accession field. -/
theorem C3_counterexample :
    envC3.search "xref:GenBank-X" = .ok [entryC3a] ∧
    [entryC3a] ≠ ([] : List SearchEntry) ∧
    extractAccession entryC3a = none ∧
    envC3.search "database:GenBank X" = .ok [entryC3b] ∧
    stage1Loop envC3 (accessionFindingQueries "X") = .found "P22222" := by
  exact ⟨by decide, by decide, by decide, by decide, by decide⟩

/-- C3 amended: the templates are issued in the fixed order; the first
template whose response both has a non-empty result list and yields an
accession from its first entry (truthy `accession`, falling back to
truthy `primaryAccession`) determines the accession, and iteration stops
there whatever the later templates would return; a template whose
response has results but yields no accession from its first entry is
passed over like a failed one. -/
theorem C3_amended_first_yielding_template_wins (env : FetchEnv) (identifier : String)
    (pre post : List String) (q a : String)
    (hdec : accessionFindingQueries identifier = pre ++ q :: post)
    (hpre : ∀ p ∈ pre, passesOver env p)
    (hq : queryYields env q = some a) :
    accessionFindingQueries identifier =
      ["xref:GenBank-" ++ identifier, "database:GenBank " ++ identifier,
       identifier, "accession:" ++ identifier, "protein_name:" ++ identifier] ∧
    get_uniprot_data env identifier = stage2 env a := by
  refine ⟨rfl, ?_⟩
  unfold get_uniprot_data
  rw [hdec, stage1Loop_append_passes env pre _ hpre,
    stage1Loop_cons_yields env q post a hq]

/-- Environment for the C3 amended witness: the first template gets an
HTTP 404, the second yields `P99999`. -/
def envC3w : FetchEnv :=
  { search := fun q =>
      if q = "xref:GenBank-Y" then .httpError 404 ""
      else if q = "database:GenBank Y" then
        .ok [{ accession := some "P99999", primaryAccession := none }]
      else .httpError 500 "",
    detail := fun _ => .connError "offline" }

/-- Witness for the amended C3 at a concrete environment. -/
theorem C3_amended_first_yielding_template_wins_witness :
    get_uniprot_data envC3w "Y" = stage2 envC3w "P99999" :=
  (C3_amended_first_yielding_template_wins envC3w "Y" ["xref:GenBank-Y"]
    ["Y", "accession:Y", "protein_name:Y"] "database:GenBank Y" "P99999"
    rfl
    (fun p hp => by
      simp only [List.mem_singleton] at hp
      subst hp
      exact Or.inr (Or.inl ⟨404, "", by decide⟩))
    (by decide)).2

/-! ## Claim C5 -/

/-- C5: in Stage 1, a connection failure on a template the loop reaches
returns the all-`None` record with status `Connection Error` regardless
of the remaining templates; an HTTP error on earlier templates lets a
later yielding template resolve the identifier; and if every template is
passed over, the status is `Not Found after multiple attempts`. -/
theorem C5_stage1_error_handling (env : FetchEnv) (identifier : String) :
    (∀ pre q post, accessionFindingQueries identifier = pre ++ q :: post →
      (∀ p ∈ pre, passesOver env p) → pyStrip q ≠ "" →
      ∀ m, env.search q = .connError m →
        get_uniprot_data env identifier = allNoneRecord "Connection Error") ∧
    (∀ pre q post, accessionFindingQueries identifier = pre ++ q :: post →
      (∀ p ∈ pre, ∃ code text, env.search p = .httpError code text) →
      ∀ a, queryYields env q = some a →
        get_uniprot_data env identifier = stage2 env a) ∧
    ((∀ p ∈ accessionFindingQueries identifier, passesOver env p) →
      get_uniprot_data env identifier =
        allNoneRecord "Not Found after multiple attempts") := by
  refine ⟨?_, ?_, ?_⟩
  · intro pre q post hdec hpre hb m hconn
    unfold get_uniprot_data
    rw [hdec, stage1Loop_append_passes env pre _ hpre,
      stage1Loop_cons_conn env q post m hb hconn]
  · intro pre q post hdec hpre a hq
    unfold get_uniprot_data
    rw [hdec,
      stage1Loop_append_passes env pre _ (fun p hp => Or.inr (Or.inl (hpre p hp))),
      stage1Loop_cons_yields env q post a hq]
  · intro hall
    unfold get_uniprot_data
    rw [stage1Loop_all_passes env _ hall]

/-- Environment whose search endpoint always raises a connection error. -/
def envC5a : FetchEnv :=
  { search := fun _ => .connError "network unreachable",
    detail := fun _ => .connError "network unreachable" }

/-- Environment where the first template gets an HTTP 400 and the second
yields an accession. -/
def envC5b : FetchEnv :=
  { search := fun q =>
      if q = "xref:GenBank-Z" then .httpError 400 ""
      else .ok [{ accession := some "P77777", primaryAccession := none }],
    detail := fun _ => .httpError 500 "" }

/-- Environment whose search endpoint always returns an empty result
list. -/
def envC5c : FetchEnv :=
  { search := fun _ => .ok [], detail := fun _ => .connError "x" }

/-- Witness for C5: the three error behaviours at concrete
environments. -/
theorem C5_stage1_error_handling_witness :
    get_uniprot_data envC5a "Z" = allNoneRecord "Connection Error" ∧
    get_uniprot_data envC5b "Z" = stage2 envC5b "P77777" ∧
    get_uniprot_data envC5c "Z" = allNoneRecord "Not Found after multiple attempts" := by
  refine ⟨?_, ?_, ?_⟩
  · exact (C5_stage1_error_handling envC5a "Z").1 []
      "xref:GenBank-Z" ["database:GenBank Z", "Z", "accession:Z", "protein_name:Z"]
      rfl (by simp) (by decide) "network unreachable" rfl
  · exact (C5_stage1_error_handling envC5b "Z").2.1 ["xref:GenBank-Z"]
      "database:GenBank Z" ["Z", "accession:Z", "protein_name:Z"]
      rfl
      (fun p hp => by
        simp only [List.mem_singleton] at hp
        subst hp
        exact ⟨400, "", by decide⟩)
      "P77777" (by decide)
  · exact (C5_stage1_error_handling envC5c "Z").2.2
      (fun p hp => Or.inr (Or.inr ⟨[], rfl, by
        unfold queryYields
        split
        · rfl
        · rfl⟩))

/-! ## Claim C6 -/

/-- The full condition under which a feature sets the CBM family: the
loop guard passes and the `family (\d+)` regex matches the description. -/
def featureFamilyMatch (f : Feature) : Bool :=
  featureCBMMatch f && (familyNumSearch (f.description.getD "").data).isSome

/-- C6: the CBM family is determined by the first feature of type
`Domain` whose description contains `Carbohydrate-binding module` and
matches `family (\d+)`, formatted `CBM<digits>`; with no such feature the
family is the empty string. -/
theorem C6_cbm_family_first_match (feats : List Feature) :
    cbmFamilyOfFeatures feats =
      (match feats.find? featureFamilyMatch with
       | some f => "CBM" ++ (familyNumSearch (f.description.getD "").data).getD ""
       | none => "") ∧
    ((∀ f ∈ feats, featureFamilyMatch f = false) →
      cbmFamilyOfFeatures feats = "") := by
  have h1 : cbmFamilyOfFeatures feats =
      (match feats.find? featureFamilyMatch with
       | some f => "CBM" ++ (familyNumSearch (f.description.getD "").data).getD ""
       | none => "") := by
    induction feats with
    | nil => rfl
    | cons f tl ih =>
      by_cases hg : featureCBMMatch f
      · cases hn : familyNumSearch (f.description.getD "").data with
        | some n =>
          have hm : featureFamilyMatch f = true := by
            simp [featureFamilyMatch, hg, hn]
          simp [cbmFamilyOfFeatures, hg, hn, List.find?_cons, hm]
        | none =>
          have hm : featureFamilyMatch f = false := by
            simp [featureFamilyMatch, hn]
          simp only [cbmFamilyOfFeatures, hg, if_true, hn, List.find?_cons, hm]
          exact ih
      · have hm : featureFamilyMatch f = false := by
          simp [featureFamilyMatch, hg]
        simp only [cbmFamilyOfFeatures, hg, if_false, List.find?_cons, hm]
        exact ih
  refine ⟨h1, fun hnone => ?_⟩
  rw [h1, List.find?_eq_none.mpr fun x hx => by simp [hnone x hx]]

/-- Feature list for the C6 witness: the first CBM description sits on a
non-`Domain` feature, so the first feature passing the whole condition is
the second one, `family 2`. -/
def featsC6 : List Feature :=
  [{ type := some "Region",
     description := some "Carbohydrate-binding module family 3" },
   { type := some "Domain",
     description := some "Carbohydrate-binding module family 2" },
   { type := some "Domain",
     description := some "Carbohydrate-binding module family 9" }]

/-- Feature list with no matching feature for the C6 witness. -/
def featsC6none : List Feature :=
  [{ type := some "Domain", description := some "Zinc finger" }]

/-- Witness for C6: the first fully matching feature wins, and a list
without a matching feature gives the empty family. -/
theorem C6_cbm_family_first_match_witness :
    cbmFamilyOfFeatures featsC6 = "CBM2" ∧ cbmFamilyOfFeatures featsC6none = "" := by
  constructor
  · rw [(C6_cbm_family_first_match featsC6).1]
    decide
  · exact (C6_cbm_family_first_match featsC6none).2 (by decide)

/-! ## Claims C4, C10, C8 -/

/-- An `optTruthy` result is `some` exactly of a non-empty stored
string. -/
theorem optTruthy_eq_some_iff (o : Option String) (a : String) :
    optTruthy o = some a ↔ o = some a ∧ a ≠ "" := by
  cases o with
  | none => simp [optTruthy]
  | some s =>
    by_cases hs : s = ""
    · subst hs
      simp only [optTruthy, if_pos rfl]
      constructor
      · intro h
        exact Option.noConfusion h
      · intro ⟨h1, h2⟩
        exact absurd (Option.some.inj h1).symm h2
    · simp only [optTruthy, if_neg hs]
      constructor
      · intro h
        refine ⟨h, ?_⟩
        rw [← Option.some.inj h]
        exact hs
      · intro ⟨h1, _⟩
        exact h1

/-- An `optTruthy` result is `none` exactly when the defaulted string is
empty. -/
theorem optTruthy_eq_none_iff (o : Option String) :
    optTruthy o = none ↔ o.getD "" = "" := by
  cases o with
  | none => simp [optTruthy]
  | some s =>
    by_cases hs : s = "" <;> simp [optTruthy, hs]

/-- The entry has a PDB cross-reference carrying a non-empty id. -/
def hasPdbWithId (xrefs : List Xref) : Prop :=
  ∃ x ∈ xrefs, x.database = some "PDB" ∧ x.id.getD "" ≠ ""

/-- The collected PDB id list is non-empty exactly when some PDB
cross-reference carries a non-empty id. -/
theorem pdbIdsOf_ne_nil_iff (xrefs : List Xref) :
    pdbIdsOf xrefs ≠ [] ↔ hasPdbWithId xrefs := by
  unfold pdbIdsOf hasPdbWithId
  rw [Ne, List.filterMap_eq_nil_iff]
  constructor
  · intro h
    push_neg at h
    obtain ⟨x, hx, hne⟩ := h
    by_cases hdb : x.database = some "PDB"
    · refine ⟨x, hx, hdb, ?_⟩
      rw [if_pos (by simp [hdb])] at hne
      exact fun hgd => hne ((optTruthy_eq_none_iff _).mpr hgd)
    · exfalso
      exact hne (if_neg (by simp [hdb]))
  · intro ⟨x, hx, hdb, hid⟩ h
    have := h x hx
    rw [if_pos (by simp [hdb]), optTruthy_eq_none_iff] at this
    exact hid this

/-- C4 counterexample: an entry holding a PDB cross-reference (with no
id) together with an AlphaFoldDB cross-reference. -/
def xrefsC4 : List Xref :=
  [{ database := some "PDB", id := none },
   { database := some "AlphaFoldDB", id := some "AF-P1" }]

/-- Environment for the C4 counterexample. -/
def envC4 : StructEnv :=
  { detail := fun _ => .ok { uniProtKBCrossReferences := some xrefsC4 },
    download := fun _ => .ok () }

/-- C4 counterexample: this entry has a cross-reference with database
`PDB`, yet it classifies as `AlphaFoldDB Available`, not
`PDB Available`, because the PDB cross-reference carries no id. -/
theorem C4_counterexample :
    (∃ x ∈ xrefsC4, x.database = some "PDB") ∧
    check_existing_structure envC4 "P1" =
      { Status := "AlphaFoldDB Available", PDB_ID := "N/A",
        AlphaFoldDB_ID := "AF-P1" } ∧
    (check_existing_structure envC4 "P1").Status ≠ "PDB Available" := by
  refine ⟨⟨{ database := some "PDB", id := none }, by decide, rfl⟩, by decide, by decide⟩

/-- C4 amended: the three-way classification with strict priority holds
once the trigger conditions are read as the code computes them: the PDB
branch fires when some PDB cross-reference carries a non-empty id (its
`PDB_ID` joining all such ids); otherwise the AlphaFold branch fires when
the first AlphaFoldDB cross-reference carries a non-empty id; otherwise
the entry needs prediction.  An entry with a usable PDB id never
classifies as `AlphaFoldDB Available`. -/
theorem C4_amended_classification (env : StructEnv) (acc : String) (data : StructData)
    (h : env.detail acc = .ok data) :
    (hasPdbWithId (data.uniProtKBCrossReferences.getD []) →
      check_existing_structure env acc =
        { Status := "PDB Available",
          PDB_ID := String.intercalate ", "
            (pdbIdsOf (data.uniProtKBCrossReferences.getD [])),
          AlphaFoldDB_ID :=
            (optTruthy (alphafoldIdOf (data.uniProtKBCrossReferences.getD []))).getD "N/A" }) ∧
    (¬ hasPdbWithId (data.uniProtKBCrossReferences.getD []) →
      ∀ a, optTruthy (alphafoldIdOf (data.uniProtKBCrossReferences.getD [])) = some a →
        check_existing_structure env acc =
          { Status := "AlphaFoldDB Available", PDB_ID := "N/A", AlphaFoldDB_ID := a }) ∧
    (¬ hasPdbWithId (data.uniProtKBCrossReferences.getD []) →
      optTruthy (alphafoldIdOf (data.uniProtKBCrossReferences.getD [])) = none →
        check_existing_structure env acc =
          { Status := "Needs Prediction", PDB_ID := "N/A", AlphaFoldDB_ID := "N/A" }) := by
  have hc : check_existing_structure env acc = classifyStructData data := by
    simp [check_existing_structure, h]
  refine ⟨?_, ?_, ?_⟩
  · intro hp
    rw [hc]
    unfold classifyStructData
    rw [if_pos ((pdbIdsOf_ne_nil_iff _).mpr hp)]
  · intro hp a ha
    rw [hc]
    unfold classifyStructData
    rw [if_neg (fun hne => hp ((pdbIdsOf_ne_nil_iff _).mp hne)), ha]
  · intro hp ha
    rw [hc]
    unfold classifyStructData
    rw [if_neg (fun hne => hp ((pdbIdsOf_ne_nil_iff _).mp hne)), ha]

/-- Entry with a usable PDB id, an id-less PDB cross-reference, and an
AlphaFold cross-reference, for the C4 witness. -/
def dataC4pdb : StructData :=
  { uniProtKBCrossReferences := some
      [{ database := some "PDB", id := some "1ABC" },
       { database := some "PDB", id := some "" },
       { database := some "AlphaFoldDB", id := some "AF-Q1" }] }

/-- Entry with only an AlphaFold cross-reference, for the C4 witness. -/
def dataC4af : StructData :=
  { uniProtKBCrossReferences := some
      [{ database := some "AlphaFoldDB", id := some "AF-Q2" }] }

/-- Entry with no cross-references, for the C4 witness. -/
def dataC4none : StructData := { uniProtKBCrossReferences := none }

/-- Deciding `hasPdbWithId` by scanning the list. -/
instance (xrefs : List Xref) : Decidable (hasPdbWithId xrefs) := by
  unfold hasPdbWithId
  infer_instance

/-- Environment serving the three C4 witness entries. -/
def envC4w : StructEnv :=
  { detail := fun acc =>
      if acc = "A1" then .ok dataC4pdb
      else if acc = "A2" then .ok dataC4af
      else .ok dataC4none,
    download := fun _ => .ok () }

/-- Witness for the amended C4: the three branches at concrete entries. -/
theorem C4_amended_classification_witness :
    check_existing_structure envC4w "A1" =
      { Status := "PDB Available", PDB_ID := "1ABC", AlphaFoldDB_ID := "AF-Q1" } ∧
    check_existing_structure envC4w "A2" =
      { Status := "AlphaFoldDB Available", PDB_ID := "N/A", AlphaFoldDB_ID := "AF-Q2" } ∧
    check_existing_structure envC4w "A3" =
      { Status := "Needs Prediction", PDB_ID := "N/A", AlphaFoldDB_ID := "N/A" } := by
  refine ⟨?_, ?_, ?_⟩
  · have h := (C4_amended_classification envC4w "A1" dataC4pdb (by decide)).1
      ⟨{ database := some "PDB", id := some "1ABC" }, by decide, by decide, by decide⟩
    rw [h]; decide
  · have h := (C4_amended_classification envC4w "A2" dataC4af (by decide)).2.1
      (by decide) "AF-Q2" (by decide)
    rw [h]
  · have h := (C4_amended_classification envC4w "A3" dataC4none (by decide)).2.2
      (by decide) (by decide)
    rw [h]

/-- Cross-references for the C10 counterexample: a usable PDB id and an
AlphaFoldDB cross-reference carrying no id. -/
def xrefsC10 : List Xref :=
  [{ database := some "PDB", id := some "1ABC" },
   { database := some "AlphaFoldDB", id := none }]

/-- Environment for the C10 counterexample. -/
def envC10 : StructEnv :=
  { detail := fun _ => .ok { uniProtKBCrossReferences := some xrefsC10 },
    download := fun _ => .ok () }

/-- C10 counterexample: in the `PDB Available` branch the reported
AlphaFoldDB id is `N/A` even though the entry does have an AlphaFoldDB
cross-reference (whose id is missing), against the claim that `N/A`
occurs only with no AlphaFoldDB cross-reference at all. -/
theorem C10_counterexample :
    (check_existing_structure envC10 "P2").Status = "PDB Available" ∧
    (∃ x ∈ xrefsC10, x.database = some "AlphaFoldDB") ∧
    (check_existing_structure envC10 "P2").AlphaFoldDB_ID = "N/A" := by
  refine ⟨by decide, ⟨{ database := some "AlphaFoldDB", id := none }, by decide, rfl⟩, by decide⟩

/-- C10 amended: in the `PDB Available` branch the AlphaFoldDB id is not
discarded by the priority rule; it equals the id of the first AlphaFoldDB
cross-reference whenever that id is a non-empty string, and is `N/A`
exactly when there is no AlphaFoldDB cross-reference or the first one
carries no non-empty id. -/
theorem C10_pdb_branch_alphafold_id (env : StructEnv) (acc : String) (data : StructData)
    (h : env.detail acc = .ok data)
    (hpdb : hasPdbWithId (data.uniProtKBCrossReferences.getD [])) :
    (check_existing_structure env acc).Status = "PDB Available" ∧
    (∀ x, (data.uniProtKBCrossReferences.getD []).find?
        (fun y => y.database == some "AlphaFoldDB") = some x →
      ∀ i, x.id = some i → i ≠ "" →
        (check_existing_structure env acc).AlphaFoldDB_ID = i) ∧
    ((data.uniProtKBCrossReferences.getD []).find?
        (fun y => y.database == some "AlphaFoldDB") = none →
      (check_existing_structure env acc).AlphaFoldDB_ID = "N/A") ∧
    (∀ x, (data.uniProtKBCrossReferences.getD []).find?
        (fun y => y.database == some "AlphaFoldDB") = some x →
      x.id.getD "" = "" →
        (check_existing_structure env acc).AlphaFoldDB_ID = "N/A") := by
  have hc : check_existing_structure env acc =
      { Status := "PDB Available",
        PDB_ID := String.intercalate ", "
          (pdbIdsOf (data.uniProtKBCrossReferences.getD [])),
        AlphaFoldDB_ID :=
          (optTruthy (alphafoldIdOf (data.uniProtKBCrossReferences.getD []))).getD "N/A" } := by
    have h0 : check_existing_structure env acc = classifyStructData data := by
      simp [check_existing_structure, h]
    rw [h0]
    unfold classifyStructData
    rw [if_pos ((pdbIdsOf_ne_nil_iff _).mpr hpdb)]
  refine ⟨by rw [hc], ?_, ?_, ?_⟩
  · intro x hfind i hid hne
    rw [hc]
    show (optTruthy (alphafoldIdOf (data.uniProtKBCrossReferences.getD []))).getD "N/A" = i
    have halpha : alphafoldIdOf (data.uniProtKBCrossReferences.getD []) = x.id := by
      unfold alphafoldIdOf
      rw [hfind]
    rw [halpha, hid]
    simp [optTruthy, hne]
  · intro hfind
    rw [hc]
    show (optTruthy (alphafoldIdOf (data.uniProtKBCrossReferences.getD []))).getD "N/A" = "N/A"
    have halpha : alphafoldIdOf (data.uniProtKBCrossReferences.getD []) = none := by
      unfold alphafoldIdOf
      rw [hfind]
    rw [halpha]
    rfl
  · intro x hfind hid
    rw [hc]
    show (optTruthy (alphafoldIdOf (data.uniProtKBCrossReferences.getD []))).getD "N/A" = "N/A"
    have halpha : alphafoldIdOf (data.uniProtKBCrossReferences.getD []) = x.id := by
      unfold alphafoldIdOf
      rw [hfind]
    rw [halpha, (optTruthy_eq_none_iff x.id).mpr hid]
    rfl

/-- Entry for the C10 witness: usable PDB id and a first AlphaFoldDB
cross-reference with a non-empty id. -/
def dataC10w : StructData :=
  { uniProtKBCrossReferences := some
      [{ database := some "PDB", id := some "2DEF" },
       { database := some "AlphaFoldDB", id := some "AF-R1" }] }

/-- Environment for the C10 witness. -/
def envC10w : StructEnv :=
  { detail := fun _ => .ok dataC10w, download := fun _ => .ok () }

/-- Witness for the amended C10: in the `PDB Available` branch the first
AlphaFoldDB cross-reference id is reported. -/
theorem C10_pdb_branch_alphafold_id_witness :
    (check_existing_structure envC10w "R1").Status = "PDB Available" ∧
    (check_existing_structure envC10w "R1").AlphaFoldDB_ID = "AF-R1" := by
  have h := C10_pdb_branch_alphafold_id envC10w "R1" dataC10w (by decide)
    ⟨{ database := some "PDB", id := some "2DEF" }, by decide, by decide, by decide⟩
  exact ⟨h.1, h.2.1 { database := some "AlphaFoldDB", id := some "AF-R1" }
    (by decide) "AF-R1" (by decide) (by decide)⟩

/-- C8: error mapping of `check_existing_structure`: a 404 maps to
`UniProt Accession Not Found`, any other HTTP code to
`HTTP Error (<code>)`, connection failures to `Connection Error`, any
other exception to `Error: <message>`; the 404 status is distinct from
every `HTTP Error (<code>)` status. -/
theorem C8_error_mapping (env : StructEnv) (acc : String) :
    (∀ text, env.detail acc = .httpError 404 text →
      check_existing_structure env acc =
        { Status := "UniProt Accession Not Found", PDB_ID := "N/A", AlphaFoldDB_ID := "N/A" }) ∧
    (∀ code text, env.detail acc = .httpError code text → code ≠ 404 →
      check_existing_structure env acc =
        { Status := httpErrorStatus code, PDB_ID := "N/A", AlphaFoldDB_ID := "N/A" }) ∧
    (∀ m, env.detail acc = .connError m →
      check_existing_structure env acc =
        { Status := "Connection Error", PDB_ID := "N/A", AlphaFoldDB_ID := "N/A" }) ∧
    (∀ m, env.detail acc = .otherError m →
      check_existing_structure env acc =
        { Status := "Error: " ++ m, PDB_ID := "N/A", AlphaFoldDB_ID := "N/A" }) ∧
    (∀ code : Nat, "UniProt Accession Not Found" ≠ httpErrorStatus code) := by
  refine ⟨?_, ?_, ?_, ?_, ?_⟩
  · intro text h
    simp [check_existing_structure, h]
  · intro code text h hne
    simp [check_existing_structure, h, hne]
  · intro m h
    simp [check_existing_structure, h]
  · intro m h
    simp [check_existing_structure, h]
  · intro code
    exact ne_of_head_ne (by rw [httpErrorStatus_head]; decide)

/-- Environments for the C8 witness, one per error kind. -/
def envC8a : StructEnv :=
  { detail := fun _ => .httpError 404 "not found", download := fun _ => .ok () }

/-- Environment whose detail endpoint raises an HTTP 500. -/
def envC8b : StructEnv :=
  { detail := fun _ => .httpError 500 "server error", download := fun _ => .ok () }

/-- Environment whose detail endpoint raises a connection error. -/
def envC8c : StructEnv :=
  { detail := fun _ => .connError "unreachable", download := fun _ => .ok () }

/-- Environment whose detail endpoint raises an unexpected exception. -/
def envC8d : StructEnv :=
  { detail := fun _ => .otherError "bad json", download := fun _ => .ok () }

/-- Witness for C8: the four error mappings at concrete environments. -/
theorem C8_error_mapping_witness :
    check_existing_structure envC8a "P1" =
      { Status := "UniProt Accession Not Found", PDB_ID := "N/A", AlphaFoldDB_ID := "N/A" } ∧
    check_existing_structure envC8b "P1" =
      { Status := httpErrorStatus 500, PDB_ID := "N/A", AlphaFoldDB_ID := "N/A" } ∧
    check_existing_structure envC8c "P1" =
      { Status := "Connection Error", PDB_ID := "N/A", AlphaFoldDB_ID := "N/A" } ∧
    check_existing_structure envC8d "P1" =
      { Status := "Error: " ++ "bad json", PDB_ID := "N/A", AlphaFoldDB_ID := "N/A" } :=
  ⟨(C8_error_mapping envC8a "P1").1 "not found" rfl,
   (C8_error_mapping envC8b "P1").2.1 500 "server error" rfl (by decide),
   (C8_error_mapping envC8c "P1").2.2.1 "unreachable" rfl,
   (C8_error_mapping envC8d "P1").2.2.2.1 "bad json" rfl⟩

/-! ## Claim C7 -/

/-- Environment for the C7 counterexample: the entry has a PDB structure
but the file server rejects the download. -/
def envC7 : StructEnv :=
  { detail := fun _ => .ok
      { uniProtKBCrossReferences := some
          [{ database := some "PDB", id := some "1XYZ" }] },
    download := fun _ => .httpError 404 "" }

/-- Input row for the C7 counterexample. -/
def rowC7 : StructInRow := { idCell := "P3", cbmFamily := some "CBM2", apr_id := none }

/-- C7 counterexample: with downloading enabled and the download
failing, the recorded `Downloaded_File_Path` is the Python `None`
(modelled `none`), not the string `N/A`. -/
theorem C7_counterexample :
    process_cbm_for_structure_check envC7 true "CBM Structures" [rowC7] =
      [{ Original_Protein_ID := "P3", CBM_Family := "CBM2",
         Structure_Status := "PDB Available", PDB_ID := "1XYZ",
         AlphaFoldDB_ID := "N/A", Downloaded_File_Path := none }] ∧
    (none : Option String) ≠ some "N/A" := by
  exact ⟨by decide, by decide⟩

/-- Shape lemma: `download_pdb_file` returns `none` or a local path of one of the two
fixed shapes under the base directory. -/
theorem download_pdb_file_shape (env : StructEnv) (prot sid st baseDir : String) :
    download_pdb_file env prot sid st baseDir = none ∨
    (∃ pid, download_pdb_file env prot sid st baseDir =
      some (pathJoin (pathJoin baseDir "PDB") (prot ++ "_" ++ pid ++ ".pdb"))) ∨
    download_pdb_file env prot sid st baseDir =
      some (pathJoin (pathJoin baseDir "AlphaFold DB") (prot ++ "_AF.pdb")) := by
  unfold download_pdb_file
  by_cases h1 : st = "PDB Available"
  · rw [if_pos h1]
    dsimp only []
    cases hdl : env.download (pdbDownloadUrl (pyStrip ((pySplitChar ',' sid).headD ""))) with
    | ok b => exact Or.inr (Or.inl ⟨pyStrip ((pySplitChar ',' sid).headD ""), rfl⟩)
    | httpError c t => exact Or.inl rfl
    | connError m => exact Or.inl rfl
    | otherError m => exact Or.inl rfl
  · rw [if_neg h1]
    by_cases h2 : st = "AlphaFoldDB Available"
    · rw [if_pos h2]
      dsimp only []
      cases hdl : env.download (afDownloadUrl sid) with
      | ok b => exact Or.inr (Or.inr rfl)
      | httpError c t => exact Or.inl rfl
      | connError m => exact Or.inl rfl
      | otherError m => exact Or.inl rfl
    · rw [if_neg h2]
      exact Or.inl rfl

/-- C7 amended: every recorded `Downloaded_File_Path` is the string
`N/A`, or one of the two local path shapes built by `download_pdb_file`
under the base directory, or the Python `None` left by a failed download
attempt; with downloading disabled it is always `N/A`. -/
theorem C7_amended_download_path (env : StructEnv) (flag : Bool) (baseDir : String)
    (rows : List StructInRow) :
    (∀ r ∈ process_cbm_for_structure_check env flag baseDir rows,
      r.Downloaded_File_Path = some "N/A" ∨
      r.Downloaded_File_Path = none ∨
      (∃ prot pid, r.Downloaded_File_Path =
        some (pathJoin (pathJoin baseDir "PDB") (prot ++ "_" ++ pid ++ ".pdb"))) ∨
      (∃ prot, r.Downloaded_File_Path =
        some (pathJoin (pathJoin baseDir "AlphaFold DB") (prot ++ "_AF.pdb")))) ∧
    (flag = false → ∀ r ∈ process_cbm_for_structure_check env flag baseDir rows,
      r.Downloaded_File_Path = some "N/A") := by
  have hmap : process_cbm_for_structure_check env flag baseDir rows =
      rows.map (processOneStructRow env flag baseDir) := by
    unfold process_cbm_for_structure_check
    rw [foldl_append_eq_map]
    simp
  have hshape : ∀ row : StructInRow,
      (processOneStructRow env flag baseDir row).Downloaded_File_Path = some "N/A" ∨
      (processOneStructRow env flag baseDir row).Downloaded_File_Path = none ∨
      (∃ prot pid, (processOneStructRow env flag baseDir row).Downloaded_File_Path =
        some (pathJoin (pathJoin baseDir "PDB") (prot ++ "_" ++ pid ++ ".pdb"))) ∨
      (∃ prot, (processOneStructRow env flag baseDir row).Downloaded_File_Path =
        some (pathJoin (pathJoin baseDir "AlphaFold DB") (prot ++ "_AF.pdb"))) := by
    intro row
    unfold processOneStructRow
    by_cases hskip : pyStrip row.idCell = ""
    · rw [if_pos hskip]
      exact Or.inl rfl
    · rw [if_neg hskip]
      simp only []
      cases flag with
      | false => exact Or.inl rfl
      | true =>
        by_cases hp : (check_existing_structure env (pyStrip row.idCell)).Status = "PDB Available"
        · rw [if_pos rfl, if_pos hp]
          rcases download_pdb_file_shape env (pyStrip row.idCell)
              (check_existing_structure env (pyStrip row.idCell)).PDB_ID
              "PDB Available" baseDir with hd | ⟨pid, hd⟩ | hd
          · exact Or.inr (Or.inl hd)
          · exact Or.inr (Or.inr (Or.inl ⟨pyStrip row.idCell, pid, hd⟩))
          · exact Or.inr (Or.inr (Or.inr ⟨pyStrip row.idCell, hd⟩))
        · rw [if_pos rfl, if_neg hp]
          by_cases ha : (check_existing_structure env (pyStrip row.idCell)).Status = "AlphaFoldDB Available"
          · rw [if_pos ha]
            rcases download_pdb_file_shape env (pyStrip row.idCell)
                (check_existing_structure env (pyStrip row.idCell)).AlphaFoldDB_ID
                "AlphaFoldDB Available" baseDir with hd | ⟨pid, hd⟩ | hd
            · exact Or.inr (Or.inl hd)
            · exact Or.inr (Or.inr (Or.inl ⟨pyStrip row.idCell, pid, hd⟩))
            · exact Or.inr (Or.inr (Or.inr ⟨pyStrip row.idCell, hd⟩))
          · rw [if_neg ha]
            exact Or.inl rfl
  constructor
  · intro r hr
    rw [hmap] at hr
    obtain ⟨row, _, hrow⟩ := List.mem_map.mp hr
    rw [← hrow]
    exact hshape row
  · intro hflag r hr
    subst hflag
    rw [hmap] at hr
    obtain ⟨row, _, hrow⟩ := List.mem_map.mp hr
    rw [← hrow]
    unfold processOneStructRow
    by_cases hskip : pyStrip row.idCell = ""
    · rw [if_pos hskip]
    · rw [if_neg hskip]
      exact rfl

/-- The failed-download output row of the C7 environment. -/
def outFailC7 : StructOutRow :=
  { Original_Protein_ID := "P3", CBM_Family := "CBM2",
    Structure_Status := "PDB Available", PDB_ID := "1XYZ",
    AlphaFoldDB_ID := "N/A", Downloaded_File_Path := none }

/-- Witness for the amended C7 at the concrete failed-download run. -/
theorem C7_amended_download_path_witness :
    outFailC7.Downloaded_File_Path = some "N/A" ∨
    outFailC7.Downloaded_File_Path = none ∨
    (∃ prot pid, outFailC7.Downloaded_File_Path =
      some (pathJoin (pathJoin "CBM Structures" "PDB") (prot ++ "_" ++ pid ++ ".pdb"))) ∨
    (∃ prot, outFailC7.Downloaded_File_Path =
      some (pathJoin (pathJoin "CBM Structures" "AlphaFold DB") (prot ++ "_AF.pdb"))) :=
  (C7_amended_download_path envC7 true "CBM Structures" [rowC7]).1 outFailC7 (by decide)
